import Mathlib

/-!
# Low-stock alert service — shallow embedding

Embedding of `src/main.py` (a Flask route over an in-memory SQLite store).
The only operation is `get_low_stock_alerts(company_id)`, a read-only
pipeline: active-product filter → low-stock aggregation → per-product
enrichment (stockout projection, supplier, worst warehouse).

Modelling decisions, each justified by the source:

* Dates. The source stores ISO date strings and compares them with `>=`;
  lexicographic order on ISO dates is day order, so dates are embedded as
  integers (days since 2025-01-01). The source pins the cutoff to the
  constant `'2025-07-03'` with the comment "Using a static date for
  '30 days ago'", i.e. "now" is 2025-08-02 (day 214); the embedding keeps
  `now` as a parameter and uses the cutoff `now - 30`, which at `now = 214`
  is exactly the source's constant.

* SQL result order. The queries that feed order-sensitive Python code
  (`min(...)` over rows, `LIMIT 1`, iteration over the GROUP BY result)
  carry no ORDER BY; their order is the SQLite access path. `Inventory` and
  `ProductSuppliers` have composite primary keys `(product_id, ...)`, so a
  `WHERE product_id = ?` query is an index scan ordered by the second key
  column; `GROUP BY p.product_id` emits groups in product-id order. The
  embedding makes those orders explicit with `insertionSort`.

* Joins on primary keys (`Warehouses.warehouse_id`, `Suppliers.supplier_id`,
  `Products.product_id`) are embedded as `find?`/existence filters, which
  coincides with the SQL join under the declared key uniqueness.

* Quantities and thresholds are `Nat` (the data model declares them
  non-negative integers); ids are `Nat`. The `Companies` table is never
  read by the route and is omitted. The HTTP layer (`jsonify`, routing) is
  out of scope; the embedding is the handler body.
-/

/-- A row of `Warehouses` (`warehouse_id INT PRIMARY KEY, company_id, name`). -/
structure Warehouse where
  warehouse_id : Nat
  company_id : Nat
  name : String
deriving DecidableEq, Repr

/-- A row of `Suppliers` (`supplier_id INT PRIMARY KEY, name, contact_email`). -/
structure Supplier where
  supplier_id : Nat
  name : String
  contact_email : String
deriving DecidableEq, Repr

/-- A row of `Products` (`product_id INT PRIMARY KEY, sku, name, low_stock_threshold`). -/
structure Product where
  product_id : Nat
  sku : String
  name : String
  low_stock_threshold : Nat
deriving DecidableEq, Repr

/-- A row of `ProductSuppliers` (link table, PK `(product_id, supplier_id)`). -/
structure ProductSupplier where
  product_id : Nat
  supplier_id : Nat
deriving DecidableEq, Repr

/-- A row of `Inventory` (PK `(product_id, warehouse_id)`, `quantity INT`). -/
structure InventoryRow where
  product_id : Nat
  warehouse_id : Nat
  quantity : Nat
deriving DecidableEq, Repr

/-- A row of `Sales` (`sale_id PK, product_id, warehouse_id, quantity_sold, sale_date`).
`sale_date` is a day number (days since 2025-01-01). -/
structure Sale where
  sale_id : Nat
  product_id : Nat
  warehouse_id : Nat
  quantity_sold : Nat
  sale_date : Int
deriving DecidableEq, Repr

/-- The relational snapshot the route reads. -/
structure DB where
  warehouses : List Warehouse
  suppliers : List Supplier
  products : List Product
  productSuppliers : List ProductSupplier
  inventory : List InventoryRow
  sales : List Sale
deriving DecidableEq, Repr

/-- Step 1 of the route (`main.py` lines 70-77): distinct product ids having a
sale at one of the company's warehouses with `sale_date >= now - 30`.
`SELECT DISTINCT s.product_id FROM Sales s JOIN Warehouses w ON
s.warehouse_id = w.warehouse_id WHERE w.company_id = ? AND s.sale_date >= ?`.
Only membership and emptiness of this list are ever consumed. -/
def activeProductIds (db : DB) (cid : Nat) (now : Int) : List Nat :=
  ((db.sales.filter (fun s =>
      decide (now - 30 ≤ s.sale_date) &&
      db.warehouses.any (fun w =>
        w.warehouse_id == s.warehouse_id && w.company_id == cid))).map
    (fun s => s.product_id)).dedup

/-- The inventory rows of a product held at the given company's warehouses:
the `Inventory JOIN Warehouses ... WHERE w.company_id = ?` restriction shared
by the aggregation query (lines 84-97). -/
def companyInventory (db : DB) (cid pid : Nat) : List InventoryRow :=
  db.inventory.filter (fun i =>
    i.product_id == pid &&
    db.warehouses.any (fun w =>
      w.warehouse_id == i.warehouse_id && w.company_id == cid))

/-- `SUM(i.quantity)` of the aggregation query: total stock of a product
across the company's warehouses. -/
def totalStock (db : DB) (cid pid : Nat) : Nat :=
  ((companyInventory db cid pid).map (fun i => i.quantity)).sum

/-- One row of the step-2 result set (`product_id, product_name, sku,
low_stock_threshold, total_stock`). -/
structure LowStockRow where
  product_id : Nat
  product_name : String
  sku : String
  low_stock_threshold : Nat
  total_stock : Nat
deriving DecidableEq, Repr

/-- The group the step-2 query produces for one product id, if any: the
product must exist in `Products`, be in the `IN (...)` active list, have at
least one inventory row at a company warehouse (inner join), and satisfy
`HAVING total_stock < p.low_stock_threshold`. -/
def groupRow (db : DB) (cid : Nat) (active : List Nat) (pid : Nat) :
    Option LowStockRow :=
  match db.products.find? (fun p => p.product_id == pid) with
  | none => none
  | some p =>
    if active.contains pid && !(companyInventory db cid pid).isEmpty &&
        decide (totalStock db cid pid < p.low_stock_threshold) then
      some ⟨pid, p.name, p.sku, p.low_stock_threshold, totalStock db cid pid⟩
    else none

/-- Step 2 of the route (lines 84-101): the low-stock aggregation,
`GROUP BY p.product_id` — one row per product id, in product-id order
(SQLite groups by the key). -/
def lowStockProducts (db : DB) (cid : Nat) (active : List Nat) :
    List LowStockRow :=
  (List.insertionSort (· ≤ ·)
      ((db.products.map (fun p => p.product_id)).dedup)).filterMap
    (groupRow db cid active)

/-- `SELECT SUM(quantity_sold) FROM Sales WHERE product_id = ? AND
sale_date >= ?` (lines 109-114) — company-wide, NOT restricted to the
company's warehouses; `fetchone()[0] or 0` turns the empty-sum NULL into 0. -/
def totalSales30 (db : DB) (pid : Nat) (now : Int) : Nat :=
  ((db.sales.filter (fun s =>
      s.product_id == pid && decide (now - 30 ≤ s.sale_date))).map
    (fun s => s.quantity_sold)).sum

/-- `avg_daily_sales = total_sales_last_30_days / 30.0` (line 116), read as
exact rational arithmetic. -/
def avgDailySales (db : DB) (pid : Nat) (now : Int) : ℚ :=
  (totalSales30 db pid now : ℚ) / 30

/-- Lines 119-121: `days_until_stockout = 0; if avg_daily_sales > 0:
days_until_stockout = int(total_stock / avg_daily_sales)`. Both operands are
non-negative, so Python's truncating `int(...)` is the floor. -/
def daysUntilStockout (db : DB) (pid : Nat) (now : Int) (total_stock : Nat) :
    Nat :=
  if 0 < avgDailySales db pid now then
    (Int.floor ((total_stock : ℚ) / avgDailySales db pid now)).toNat
  else 0

/-- The supplier ids linked to a product, in supplier-id order: the
`ProductSuppliers` primary key `(product_id, supplier_id)` makes the
`WHERE ps.product_id = ?` scan (lines 124-130) an index scan ordered by
`supplier_id`. -/
def supplierIdsFor (db : DB) (pid : Nat) : List Nat :=
  List.insertionSort (· ≤ ·)
    ((db.productSuppliers.filter (fun ps => ps.product_id == pid)).map
      (fun ps => ps.supplier_id))

/-- Lines 124-131: join the linked supplier ids to `Suppliers` and take the
first row (`LIMIT 1`); `none` when the join is empty. -/
def supplierInfo (db : DB) (pid : Nat) : Option Supplier :=
  ((supplierIdsFor db pid).filterMap (fun sid =>
    db.suppliers.find? (fun s => s.supplier_id == sid))).head?

/-- A row of the step-3 warehouse query result (`w.warehouse_id, w.name,
i.quantity`). -/
structure WhRow where
  warehouse_id : Nat
  name : String
  quantity : Nat
deriving DecidableEq, Repr

/-- The order of `Inventory`'s `(product_id, warehouse_id)` primary-key index
at a fixed product id: ascending warehouse id. -/
def invByWid (a b : InventoryRow) : Prop :=
  a.warehouse_id ≤ b.warehouse_id

instance : DecidableRel invByWid := fun a b => Nat.decLe _ _

instance : IsTotal InventoryRow invByWid :=
  ⟨fun a b => Nat.le_total a.warehouse_id b.warehouse_id⟩

instance : IsTrans InventoryRow invByWid :=
  ⟨fun _ _ _ => Nat.le_trans⟩

/-- The `JOIN Warehouses w ON i.warehouse_id = w.warehouse_id ...
w.company_id = ?` lookup (a primary-key join) producing the selected columns
`w.warehouse_id, w.name, i.quantity`. -/
def whJoin (db : DB) (cid : Nat) (i : InventoryRow) : Option WhRow :=
  (db.warehouses.find? (fun w =>
    w.warehouse_id == i.warehouse_id && w.company_id == cid)).map
  (fun w => WhRow.mk w.warehouse_id w.name i.quantity)

/-- Lines 134-141: `SELECT w.warehouse_id, w.name, i.quantity FROM Inventory i
JOIN Warehouses w ... WHERE i.product_id = ? AND w.company_id = ? AND
i.quantity > 0` — an index scan on `Inventory`'s `(product_id, warehouse_id)`
primary key, hence ordered by `warehouse_id`. -/
def warehousesForProduct (db : DB) (cid pid : Nat) : List WhRow :=
  (List.insertionSort invByWid
      (db.inventory.filter (fun i =>
        i.product_id == pid && decide (0 < i.quantity)))).filterMap
    (whJoin db cid)

/-- One comparison step of Python's `min(..., key=lambda x: x['quantity'])`:
the running best is replaced only on a strictly smaller key, so the first
element attaining the minimum wins. -/
def minStep (acc y : WhRow) : WhRow :=
  if y.quantity < acc.quantity then y else acc

/-- Line 145: `min(all_warehouses_for_product, key=lambda x: x['quantity'])`
(`none` on the empty list, which Python would reject; the source guards with
`if all_warehouses_for_product:` first). -/
def minByQuantity : List WhRow → Option WhRow
  | [] => none
  | x :: xs => some (xs.foldl minStep x)

/-- The worst-warehouse selection policy: a row of the per-product warehouse
list with minimal quantity, ties going to the lowest warehouse id. -/
def isWorstWarehouse (l : List WhRow) (wh : WhRow) : Prop :=
  wh ∈ l ∧ ∀ y ∈ l, wh.quantity ≤ y.quantity ∧
    (y.quantity = wh.quantity → wh.warehouse_id ≤ y.warehouse_id)

/-- The `supplier` sub-object of an alert (lines 157-161): the joined row's
fields, or the `{None, "N/A", "N/A"}` placeholder. -/
structure SupplierInfo where
  id : Option Nat
  name : String
  contact_email : String
deriving DecidableEq, Repr

def supplierRecord : Option Supplier → SupplierInfo
  | some s => ⟨some s.supplier_id, s.name, s.contact_email⟩
  | none => ⟨none, "N/A", "N/A"⟩

/-- One alert object (lines 148-162). -/
structure Alert where
  product_id : Nat
  product_name : String
  sku : String
  warehouse_id : Nat
  warehouse_name : String
  current_stock : Nat
  threshold : Nat
  days_until_stockout : Nat
  supplier : SupplierInfo
deriving DecidableEq, Repr

/-- Step 3 for one low-stock row (lines 105-163): the alert is built only
when the positive-quantity warehouse list is non-empty (`if
all_warehouses_for_product:`), from the lowest-stock warehouse. -/
def mkAlert (db : DB) (cid : Nat) (now : Int) (r : LowStockRow) :
    Option Alert :=
  (minByQuantity (warehousesForProduct db cid r.product_id)).map (fun wh =>
    { product_id := r.product_id
      product_name := r.product_name
      sku := r.sku
      warehouse_id := wh.warehouse_id
      warehouse_name := wh.name
      current_stock := wh.quantity
      threshold := r.low_stock_threshold
      days_until_stockout := daysUntilStockout db r.product_id now r.total_stock
      supplier := supplierRecord (supplierInfo db r.product_id) })

/-- The JSON response `{"alerts": ..., "total_alerts": ...}`. -/
structure Response where
  alerts : List Alert
  total_alerts : Nat
deriving DecidableEq, Repr

/-- The `alerts` list the loop at lines 103-163 accumulates. -/
def alertsOf (db : DB) (cid : Nat) (now : Int) : List Alert :=
  (lowStockProducts db cid (activeProductIds db cid now)).filterMap
    (mkAlert db cid now)

/-- The route body `get_low_stock_alerts` (lines 59-165): empty-active
fast path at lines 79-80, otherwise one alert per low-stock product that has
a positive-stock warehouse, with `total_alerts = len(alerts)`. -/
def get_low_stock_alerts (db : DB) (cid : Nat) (now : Int) : Response :=
  if (activeProductIds db cid now).isEmpty then ⟨[], 0⟩
  else ⟨alertsOf db cid now, (alertsOf db cid now).length⟩

/-- `daysUntilStockout` with the rational floor rewritten as Nat division
(`⌊ts / (n/30)⌋ = 30 ts / n`); proved equal to the source form in
`daysUntilStockout_eq` and used to make closed evaluations kernel-computable. -/
def daysUntilStockoutNat (db : DB) (pid : Nat) (now : Int) (total_stock : Nat) :
    Nat :=
  if 0 < totalSales30 db pid now then
    30 * total_stock / totalSales30 db pid now
  else 0

/-- `mkAlert` with `daysUntilStockoutNat`; proved equal to `mkAlert` in
`mkAlert_eq_mkAlertNat`. -/
def mkAlertNat (db : DB) (cid : Nat) (now : Int) (r : LowStockRow) :
    Option Alert :=
  (minByQuantity (warehousesForProduct db cid r.product_id)).map (fun wh =>
    { product_id := r.product_id
      product_name := r.product_name
      sku := r.sku
      warehouse_id := wh.warehouse_id
      warehouse_name := wh.name
      current_stock := wh.quantity
      threshold := r.low_stock_threshold
      days_until_stockout := daysUntilStockoutNat db r.product_id now r.total_stock
      supplier := supplierRecord (supplierInfo db r.product_id) })

/-- The sample snapshot `setup_database` builds (lines 33-53), with ISO dates
as day numbers of 2025: 2025-06-18 = 169, 2025-07-23 = 204,
2025-07-28 = 209; the route's pinned "now" 2025-08-02 is day 214. -/
def sampleDb : DB where
  warehouses := [⟨456, 1, "Main Warehouse"⟩, ⟨457, 1, "West Coast Hub"⟩]
  suppliers := [⟨789, "Supplier Corp", "orders@supplier.com"⟩,
                ⟨790, "Component Masters", "sales@components.com"⟩]
  products := [⟨123, "WID-001", "Widget A", 20⟩, ⟨124, "GAD-002", "Gadget B", 50⟩]
  productSuppliers := [⟨123, 789⟩, ⟨124, 790⟩]
  inventory := [⟨123, 456, 5⟩, ⟨123, 457, 10⟩, ⟨124, 456, 30⟩, ⟨124, 457, 40⟩]
  sales := [⟨1, 123, 456, 20, 204⟩, ⟨2, 123, 457, 18, 209⟩,
            ⟨3, 124, 456, 2, 169⟩]

/-- The day the route's hardcoded cutoff `'2025-07-03' = now - 30` makes
"now": 2025-08-02. -/
def sampleNow : Int := 214

/-- The scenario snapshot exactly as the specification words it: same rows as
`sampleDb` but with Widget A's sales dated 27 and 2 days before now and
Gadget B's sale 45 days before now (`214 - 27 = 187`, `214 - 2 = 212`,
`214 - 45 = 169`). -/
def scenarioDb : DB :=
  { sampleDb with
    sales := [⟨1, 123, 456, 20, 187⟩, ⟨2, 123, 457, 18, 212⟩,
              ⟨3, 124, 456, 2, 169⟩] }

/-- A snapshot exercising the edge cases (used as concrete input for witness
theorems; "now" is day 100, so the window cutoff is day 70):
* product 200 (threshold 5, stocks 2 and 2 — a quantity tie between
  warehouses 10 and 11, no linked supplier, sale of 3 on day 100);
* product 201 (threshold 5, stocks 0 and 0 — passes the aggregate check with
  total 0 but has no positive-stock warehouse, sale of 1 on day 99);
* product 202 (threshold 7, stock 6 — exactly one unit below threshold, two
  linked suppliers 31 and 30 inserted out of order, sale of 2 on day 70,
  exactly at the window cutoff);
* product 203 (threshold 4, stock 4 — exactly at threshold, sale on day 98). -/
def wdb : DB where
  warehouses := [⟨10, 1, "W1"⟩, ⟨11, 1, "W2"⟩]
  suppliers := [⟨30, "S30", "s30@x"⟩, ⟨31, "S31", "s31@x"⟩]
  products := [⟨200, "SKU-200", "Prod200", 5⟩, ⟨201, "SKU-201", "Prod201", 5⟩,
               ⟨202, "SKU-202", "Prod202", 7⟩, ⟨203, "SKU-203", "Prod203", 4⟩]
  productSuppliers := [⟨202, 31⟩, ⟨202, 30⟩]
  inventory := [⟨200, 10, 2⟩, ⟨200, 11, 2⟩, ⟨201, 10, 0⟩, ⟨201, 11, 0⟩,
                ⟨202, 10, 6⟩, ⟨203, 10, 4⟩]
  sales := [⟨1, 200, 10, 3, 100⟩, ⟨2, 201, 10, 1, 99⟩,
            ⟨3, 202, 11, 2, 70⟩, ⟨4, 203, 10, 5, 98⟩]

/-! ## General lemmas about the pipeline -/

/-- The rational stockout projection equals its Nat-division form:
`⌊ts / (n / 30)⌋ = 30 * ts / n`. -/
theorem daysUntilStockout_eq (db : DB) (pid : Nat) (now : Int) (ts : Nat) :
    daysUntilStockout db pid now ts = daysUntilStockoutNat db pid now ts := by
  unfold daysUntilStockout daysUntilStockoutNat avgDailySales
  by_cases h : 0 < totalSales30 db pid now
  · have h0 : (0 : ℚ) < (totalSales30 db pid now : ℚ) := by exact_mod_cast h
    have hq : (0 : ℚ) < (totalSales30 db pid now : ℚ) / 30 :=
      div_pos h0 (by norm_num)
    rw [if_pos hq, if_pos h]
    have hcast : (ts : ℚ) / ((totalSales30 db pid now : ℚ) / 30)
        = ((30 * ts : ℕ) : ℚ) / ((totalSales30 db pid now : ℕ) : ℚ) := by
      rw [div_div_eq_mul_div]
      push_cast
      ring
    rw [hcast, Int.floor_toNat, Nat.floor_div_eq_div]
  · have h0 : totalSales30 db pid now = 0 := Nat.eq_zero_of_not_pos h
    rw [if_neg h, if_neg]
    rw [h0]
    norm_num

/-- `mkAlert` and its Nat-division form agree. -/
theorem mkAlert_eq_mkAlertNat (db : DB) (cid : Nat) (now : Int) :
    mkAlert db cid now = mkAlertNat db cid now := by
  funext r
  unfold mkAlert mkAlertNat
  rw [daysUntilStockout_eq]

/-- The route rewritten with `daysUntilStockoutNat`, so closed calls can be
evaluated by the kernel. -/
theorem get_low_stock_alerts_eval (db : DB) (cid : Nat) (now : Int) :
    get_low_stock_alerts db cid now =
      if (activeProductIds db cid now).isEmpty then ⟨[], 0⟩
      else
        ⟨(lowStockProducts db cid (activeProductIds db cid now)).filterMap
            (mkAlertNat db cid now),
          ((lowStockProducts db cid (activeProductIds db cid now)).filterMap
            (mkAlertNat db cid now)).length⟩ := by
  unfold get_low_stock_alerts alertsOf
  rw [mkAlert_eq_mkAlertNat]

/-- Evaluation of the route on the `setup_database` snapshot. -/
theorem sample_eval :
    get_low_stock_alerts sampleDb 1 214 =
      ⟨[⟨123, "Widget A", "WID-001", 456, "Main Warehouse", 5, 20, 11,
         ⟨some 789, "Supplier Corp", "orders@supplier.com"⟩⟩], 1⟩ := by
  rw [get_low_stock_alerts_eval]
  decide

/-- Evaluation of the route on the edge-case snapshot `wdb`. -/
theorem wdb_eval :
    get_low_stock_alerts wdb 1 100 =
      ⟨[⟨200, "Prod200", "SKU-200", 10, "W1", 2, 5, 40, ⟨none, "N/A", "N/A"⟩⟩,
        ⟨202, "Prod202", "SKU-202", 10, "W1", 6, 7, 90,
         ⟨some 30, "S30", "s30@x"⟩⟩], 2⟩ := by
  rw [get_low_stock_alerts_eval]
  decide

/-- With an empty active-product list the whole loop is skipped, so the
`alerts` field always equals `alertsOf`. -/
theorem alerts_eq_alertsOf (db : DB) (cid : Nat) (now : Int) :
    (get_low_stock_alerts db cid now).alerts = alertsOf db cid now := by
  unfold get_low_stock_alerts
  split
  · next hempty =>
    rw [List.isEmpty_iff] at hempty
    have hg : ∀ pid, groupRow db cid ([] : List Nat) pid = none := by
      intro pid
      unfold groupRow
      split
      · rfl
      · rw [if_neg]
        simp
    unfold alertsOf lowStockProducts
    rw [hempty]
    simp [hg]
  · rfl

/-- `total_alerts` is always the length of `alerts`. -/
theorem total_alerts_eq (db : DB) (cid : Nat) (now : Int) :
    (get_low_stock_alerts db cid now).total_alerts =
      (get_low_stock_alerts db cid now).alerts.length := by
  unfold get_low_stock_alerts
  split <;> rfl

/-- The lines 79-80 fast path: an empty active-product list yields the
empty response. -/
theorem getAlerts_empty_of_active_empty {db : DB} {cid : Nat} {now : Int}
    (h : activeProductIds db cid now = []) :
    get_low_stock_alerts db cid now = ⟨[], 0⟩ := by
  unfold get_low_stock_alerts
  rw [h]
  rfl

/-- Python's `min(..., key=...)` over a list sorted by warehouse id returns a
minimal-quantity element, and among equal quantities the lowest warehouse id
(the first minimal element of a warehouse-id-sorted list). -/
theorem foldl_minStep_spec :
    ∀ (xs : List WhRow) (x : WhRow),
      (x :: xs).Pairwise (fun a b => a.warehouse_id ≤ b.warehouse_id) →
      xs.foldl minStep x ∈ x :: xs ∧
        ∀ y ∈ x :: xs,
          (xs.foldl minStep x).quantity ≤ y.quantity ∧
            (y.quantity = (xs.foldl minStep x).quantity →
              (xs.foldl minStep x).warehouse_id ≤ y.warehouse_id)
  | [], x, _ => by
    refine ⟨List.mem_cons_self _ _, ?_⟩
    intro y hy
    rcases List.mem_cons.mp hy with rfl | h
    · exact ⟨le_refl _, fun _ => le_refl _⟩
    · cases h
  | y :: ys, x, h => by
    rw [List.foldl_cons]
    by_cases hq : y.quantity < x.quantity
    · have hstep : minStep x y = y := by unfold minStep; rw [if_pos hq]
      rw [hstep]
      have ih := foldl_minStep_spec ys y h.of_cons
      refine ⟨List.mem_cons_of_mem _ ih.1, ?_⟩
      intro z hz
      rcases List.mem_cons.mp hz with rfl | hz'
      · have h1 := (ih.2 y (List.mem_cons_self _ _)).1
        exact ⟨le_of_lt (lt_of_le_of_lt h1 hq), fun heq => absurd heq (by omega)⟩
      · exact ih.2 z hz'
    · have hstep : minStep x y = x := by unfold minStep; rw [if_neg hq]
      rw [hstep]
      rcases List.pairwise_cons.mp h with ⟨hx, hyys⟩
      have hpw : (x :: ys).Pairwise (fun a b => a.warehouse_id ≤ b.warehouse_id) :=
        List.pairwise_cons.mpr
          ⟨fun z hz => hx z (List.mem_cons_of_mem _ hz), hyys.of_cons⟩
      have ih := foldl_minStep_spec ys x hpw
      have hxy : x.warehouse_id ≤ y.warehouse_id :=
        hx y (List.mem_cons_self _ _)
      constructor
      · rcases List.mem_cons.mp ih.1 with hh | hmem
        · rw [hh]; exact List.mem_cons_self _ _
        · exact List.mem_cons_of_mem _ (List.mem_cons_of_mem _ hmem)
      · intro z hz
        rcases List.mem_cons.mp hz with rfl | hz'
        · exact ih.2 z (List.mem_cons_self _ _)
        rcases List.mem_cons.mp hz' with rfl | hz''
        · have hrx := ih.2 x (List.mem_cons_self _ _)
          have hxq : x.quantity ≤ z.quantity := le_of_not_lt hq
          refine ⟨le_trans hrx.1 hxq, fun heq => ?_⟩
          have hx_eq : x.quantity = (ys.foldl minStep x).quantity := by omega
          exact le_trans (hrx.2 hx_eq) hxy
        · exact ih.2 z (List.mem_cons_of_mem _ hz'')

/-- `minByQuantity` of a warehouse-id-sorted list picks the worst warehouse. -/
theorem minByQuantity_spec {l : List WhRow} {wh : WhRow}
    (hl : l.Pairwise (fun a b => a.warehouse_id ≤ b.warehouse_id))
    (h : minByQuantity l = some wh) :
    isWorstWarehouse l wh := by
  cases l with
  | nil => cases h
  | cons x xs =>
    have hspec := foldl_minStep_spec xs x hl
    unfold minByQuantity at h
    injection h with h'
    rw [← h']
    exact hspec

/-- What a successful warehouse join row contains. -/
theorem whJoin_eq_some {db : DB} {cid : Nat} {i : InventoryRow} {c : WhRow}
    (h : whJoin db cid i = some c) :
    c.warehouse_id = i.warehouse_id ∧ c.quantity = i.quantity ∧
      ∃ w ∈ db.warehouses, w.warehouse_id = i.warehouse_id ∧
        w.company_id = cid ∧ c.name = w.name := by
  unfold whJoin at h
  rcases Option.map_eq_some'.mp h with ⟨w, hw, hc⟩
  have hmem := List.mem_of_find?_eq_some hw
  have hpred := List.find?_some hw
  simp only [Bool.and_eq_true, beq_iff_eq] at hpred
  subst hc
  exact ⟨hpred.1, rfl, w, hmem, hpred.1, hpred.2, rfl⟩

/-- The warehouse rows of a product come out ordered by warehouse id (the
`(product_id, warehouse_id)` index order). -/
theorem warehousesForProduct_sorted (db : DB) (cid pid : Nat) :
    (warehousesForProduct db cid pid).Pairwise
      (fun a b => a.warehouse_id ≤ b.warehouse_id) := by
  unfold warehousesForProduct
  rw [List.pairwise_filterMap]
  have hs := List.sorted_insertionSort invByWid
    (db.inventory.filter (fun i => i.product_id == pid && decide (0 < i.quantity)))
  refine hs.imp ?_
  intro a b hab c hc d hd
  rw [Option.mem_def] at hc hd
  rcases whJoin_eq_some hc with ⟨hcwid, -, -⟩
  rcases whJoin_eq_some hd with ⟨hdwid, -, -⟩
  rw [hcwid, hdwid]
  exact hab

/-- Constructing membership in the company-restricted inventory. -/
theorem mem_companyInventory_of {db : DB} {cid pid : Nat} {i : InventoryRow}
    (hi : i ∈ db.inventory) (hpid : i.product_id = pid)
    (w : Warehouse) (hw : w ∈ db.warehouses)
    (hwid : w.warehouse_id = i.warehouse_id) (hcid : w.company_id = cid) :
    i ∈ companyInventory db cid pid := by
  unfold companyInventory
  rw [List.mem_filter]
  refine ⟨hi, ?_⟩
  simp only [Bool.and_eq_true, beq_iff_eq, List.any_eq_true]
  exact ⟨hpid, w, hw, by simp [hwid, hcid]⟩

/-- A single holding never exceeds the company-wide total. -/
theorem quantity_le_totalStock {db : DB} {cid pid : Nat} {i : InventoryRow}
    (h : i ∈ companyInventory db cid pid) :
    i.quantity ≤ totalStock db cid pid :=
  List.le_sum_of_mem (List.mem_map_of_mem _ h)

/-- Every row of the per-product warehouse list stems from a
positive-quantity inventory row of the product at a company warehouse. -/
theorem mem_warehousesForProduct {db : DB} {cid pid : Nat} {c : WhRow}
    (h : c ∈ warehousesForProduct db cid pid) :
    ∃ i ∈ companyInventory db cid pid,
      c.quantity = i.quantity ∧ 0 < i.quantity ∧
        c.warehouse_id = i.warehouse_id := by
  unfold warehousesForProduct at h
  rcases List.mem_filterMap.mp h with ⟨i, hi, hji⟩
  have hi' := (List.perm_insertionSort invByWid _).mem_iff.mp hi
  rw [List.mem_filter] at hi'
  obtain ⟨hinv, hcond⟩ := hi'
  simp only [Bool.and_eq_true, beq_iff_eq, decide_eq_true_eq] at hcond
  rcases whJoin_eq_some hji with ⟨hwid, hq, w, hwmem, hwwid, hwcid, -⟩
  exact ⟨i, mem_companyInventory_of hinv hcond.1 w hwmem hwwid hwcid,
    hq, hcond.2, hwid⟩

/-- Quantity bounds for a row of the per-product warehouse list. -/
theorem warehousesForProduct_bounds {db : DB} {cid pid : Nat} {c : WhRow}
    (h : c ∈ warehousesForProduct db cid pid) :
    0 < c.quantity ∧ c.quantity ≤ totalStock db cid pid := by
  rcases mem_warehousesForProduct h with ⟨i, hmem, hq, hpos, -⟩
  constructor
  · rw [hq]; exact hpos
  · rw [hq]; exact quantity_le_totalStock hmem

/-- What a produced aggregation group contains. -/
theorem groupRow_eq_some {db : DB} {cid : Nat} {active : List Nat} {pid : Nat}
    {r : LowStockRow} (h : groupRow db cid active pid = some r) :
    r.product_id = pid ∧ r.total_stock = totalStock db cid pid ∧
      r.total_stock < r.low_stock_threshold ∧ active.contains pid = true ∧
      ∃ p, db.products.find? (fun p => p.product_id == pid) = some p ∧
        r.low_stock_threshold = p.low_stock_threshold ∧
        r.product_name = p.name ∧ r.sku = p.sku := by
  unfold groupRow at h
  split at h
  · cases h
  · next p hp =>
    split at h
    · next hcond =>
      injection h with h'
      subst h'
      simp only [Bool.and_eq_true, decide_eq_true_eq] at hcond
      exact ⟨rfl, rfl, hcond.2, hcond.1.1, p, hp, rfl, rfl, rfl⟩
    · cases h

/-- Constructing an aggregation group. -/
theorem groupRow_eq_some_of {db : DB} {cid : Nat} {active : List Nat}
    {pid : Nat} {p : Product}
    (hfind : db.products.find? (fun q => q.product_id == pid) = some p)
    (hact : active.contains pid = true)
    (hne : companyInventory db cid pid ≠ [])
    (hlt : totalStock db cid pid < p.low_stock_threshold) :
    groupRow db cid active pid =
      some ⟨pid, p.name, p.sku, p.low_stock_threshold, totalStock db cid pid⟩ := by
  have hne' : (companyInventory db cid pid).isEmpty = false := by
    rw [Bool.eq_false_iff]
    intro hcontra
    exact hne (List.isEmpty_iff.mp hcontra)
  have hcond : (active.contains pid && !(companyInventory db cid pid).isEmpty &&
      decide (totalStock db cid pid < p.low_stock_threshold)) = true := by
    rw [hne', hact]
    simp [hlt]
  unfold groupRow
  rw [hfind]
  dsimp only
  rw [if_pos hcond]

/-- What a produced alert contains. -/
theorem mkAlert_eq_some {db : DB} {cid : Nat} {now : Int} {r : LowStockRow}
    {a : Alert} (h : mkAlert db cid now r = some a) :
    ∃ wh, minByQuantity (warehousesForProduct db cid r.product_id) = some wh ∧
      a.product_id = r.product_id ∧ a.product_name = r.product_name ∧
      a.sku = r.sku ∧ a.warehouse_id = wh.warehouse_id ∧
      a.warehouse_name = wh.name ∧ a.current_stock = wh.quantity ∧
      a.threshold = r.low_stock_threshold ∧
      a.days_until_stockout = daysUntilStockout db r.product_id now r.total_stock ∧
      a.supplier = supplierRecord (supplierInfo db r.product_id) := by
  unfold mkAlert at h
  rcases Option.map_eq_some'.mp h with ⟨wh, hwh, ha⟩
  subst ha
  exact ⟨wh, hwh, rfl, rfl, rfl, rfl, rfl, rfl, rfl, rfl, rfl⟩

/-- A row of the aggregation result is the group of its own product id. -/
theorem mem_lowStockProducts {db : DB} {cid : Nat} {active : List Nat}
    {r : LowStockRow} (h : r ∈ lowStockProducts db cid active) :
    groupRow db cid active r.product_id = some r := by
  unfold lowStockProducts at h
  rcases List.mem_filterMap.mp h with ⟨pid, -, hg⟩
  have hpid := (groupRow_eq_some hg).1
  rw [hpid]
  exact hg

/-- The alerts come out in strictly increasing product-id order: the GROUP BY
key list is sorted and duplicate-free, and both `groupRow` and `mkAlert`
preserve the product id. -/
theorem alertsOf_pairwise (db : DB) (cid : Nat) (now : Int) :
    (alertsOf db cid now).Pairwise (fun a b => a.product_id < b.product_id) := by
  unfold alertsOf lowStockProducts
  rw [List.filterMap_filterMap, List.pairwise_filterMap]
  have hs : List.Sorted (· ≤ ·)
      (List.insertionSort (· ≤ ·)
        ((db.products.map (fun p => p.product_id)).dedup)) :=
    List.sorted_insertionSort _ _
  have hn : (List.insertionSort (· ≤ ·)
      ((db.products.map (fun p => p.product_id)).dedup)).Nodup :=
    (List.perm_insertionSort _ _).nodup_iff.mpr (List.nodup_dedup _)
  refine (List.Pairwise.and hs hn).imp ?_
  intro a b hab x hx y hy
  rw [Option.mem_def, Option.bind_eq_some] at hx hy
  rcases hx with ⟨r, hr, hx⟩
  rcases hy with ⟨r', hr', hy⟩
  rcases mkAlert_eq_some hx with ⟨-, -, hxpid, -⟩
  rcases mkAlert_eq_some hy with ⟨-, -, hypid, -⟩
  rw [hxpid, (groupRow_eq_some hr).1, hypid, (groupRow_eq_some hr').1]
  exact lt_of_le_of_ne hab.1 hab.2

/-- When an option-valued map succeeds on every element, the head of the
mapped list is the image of the head. -/
theorem head?_filterMap_of_total {α β : Type} (f : α → Option β) :
    ∀ (l : List α), (∀ x ∈ l, (f x).isSome) →
      (l.filterMap f).head? = l.head?.bind f
  | [], _ => rfl
  | x :: xs, h => by
    obtain ⟨b, hb⟩ := Option.isSome_iff_exists.mp (h x (List.mem_cons_self _ _))
    simp [List.filterMap_cons, hb]

/-- Membership in the per-product supplier-id list is exactly being linked. -/
theorem mem_supplierIdsFor {db : DB} {pid sid : Nat} :
    sid ∈ supplierIdsFor db pid ↔
      ∃ ps ∈ db.productSuppliers, ps.product_id = pid ∧
        ps.supplier_id = sid := by
  unfold supplierIdsFor
  rw [(List.perm_insertionSort _ _).mem_iff, List.mem_map]
  constructor
  · rintro ⟨ps, hps, rfl⟩
    rw [List.mem_filter] at hps
    exact ⟨ps, hps.1, by simpa using hps.2, rfl⟩
  · rintro ⟨ps, hps, hpid, rfl⟩
    exact ⟨ps, List.mem_filter.mpr ⟨hps, by simp [hpid]⟩, rfl⟩

/-- The per-product supplier-id list is sorted ascending. -/
theorem supplierIdsFor_sorted (db : DB) (pid : Nat) :
    List.Sorted (· ≤ ·) (supplierIdsFor db pid) :=
  List.sorted_insertionSort _ _

/-- With unique product ids, looking a member product up by its id finds it. -/
theorem find?_product_eq_self {l : List Product} {p : Product}
    (hnodup : (l.map (fun q => q.product_id)).Nodup) (hp : p ∈ l) :
    l.find? (fun q => q.product_id == p.product_id) = some p := by
  have hsome : (l.find? (fun q => q.product_id == p.product_id)).isSome :=
    List.find?_isSome.mpr ⟨p, hp, by simp⟩
  obtain ⟨q, hq⟩ := Option.isSome_iff_exists.mp hsome
  have hqmem := List.mem_of_find?_eq_some hq
  have hqpred := List.find?_some hq
  simp only [beq_iff_eq] at hqpred
  rw [hq, List.inj_on_of_nodup_map hnodup hqmem hp hqpred]

/-! ## Claim theorems -/

/-- C1: On the concrete scenario snapshot — Company 1 with Widget A
(threshold 20, stocks 5 and 10, sales of 20 units 27 days before now and
18 units 2 days before now) and Gadget B (threshold 50, stocks 30 and 40,
one sale of 2 units 45 days before now) — the route returns exactly one
alert, for Widget A, with `days_until_stockout = 11` and the reported
warehouse the one holding quantity 5. -/
theorem C1_concrete_scenario :
    get_low_stock_alerts scenarioDb 1 214 =
      ⟨[⟨123, "Widget A", "WID-001", 456, "Main Warehouse", 5, 20, 11,
         ⟨some 789, "Supplier Corp", "orders@supplier.com"⟩⟩], 1⟩ := by
  rw [get_low_stock_alerts_eval]
  decide

/-- C5: two calls with the same company id, the same `now` and an unchanged
snapshot yield identical output, and the alerts list is in strictly
increasing product-id order, so its order is deterministic. -/
theorem C5_deterministic_sorted (db : DB) (cid : Nat) (now : Int) :
    get_low_stock_alerts db cid now = get_low_stock_alerts db cid now ∧
      (get_low_stock_alerts db cid now).alerts.Pairwise
        (fun a b => a.product_id < b.product_id) := by
  refine ⟨rfl, ?_⟩
  rw [alerts_eq_alertsOf]
  exact alertsOf_pairwise db cid now

/-- C9: no two alerts share a product id, and `total_alerts` equals the
length of the alerts list. -/
theorem C9_unique_products_and_count (db : DB) (cid : Nat) (now : Int) :
    (get_low_stock_alerts db cid now).alerts.Pairwise
        (fun a b => a.product_id ≠ b.product_id) ∧
      (get_low_stock_alerts db cid now).total_alerts =
        (get_low_stock_alerts db cid now).alerts.length := by
  constructor
  · rw [alerts_eq_alertsOf]
    exact (alertsOf_pairwise db cid now).imp (fun h => Nat.ne_of_lt h)
  · exact total_alerts_eq db cid now

/-- C6: a company (known or unknown) with no sale at any of its warehouses
in the trailing 30-day window gets the empty response. -/
theorem C6_no_recent_sales_empty (db : DB) (cid : Nat) (now : Int)
    (h : ∀ s ∈ db.sales, ∀ w ∈ db.warehouses,
      w.warehouse_id = s.warehouse_id → w.company_id = cid →
        s.sale_date < now - 30) :
    get_low_stock_alerts db cid now = ⟨[], 0⟩ := by
  apply getAlerts_empty_of_active_empty
  unfold activeProductIds
  rw [List.dedup_eq_nil, List.map_eq_nil, List.filter_eq_nil_iff]
  intro s hs
  simp only [Bool.and_eq_true, decide_eq_true_eq, List.any_eq_true,
    beq_iff_eq, not_and]
  intro hdate ⟨w, hw, hwid, hcid⟩
  exact absurd hdate (not_le.mpr (h s hs w hw hwid hcid))

/-- C6 witness: company id 999 matches no warehouse of the sample snapshot,
so no sale of that company is in the window; the result is empty. -/
theorem C6_witness : get_low_stock_alerts sampleDb 999 214 = ⟨[], 0⟩ :=
  C6_no_recent_sales_empty sampleDb 999 214 (by decide)

/-- C7: the active-product window is an inclusive lower bound — a sale dated
exactly `now - 30` at a company warehouse makes its product active. -/
theorem C7_inclusive_lower_bound (db : DB) (cid : Nat) (now : Int) (s : Sale)
    (hs : s ∈ db.sales) (hdate : s.sale_date = now - 30)
    (w : Warehouse) (hw : w ∈ db.warehouses)
    (hwid : w.warehouse_id = s.warehouse_id) (hcid : w.company_id = cid) :
    s.product_id ∈ activeProductIds db cid now := by
  unfold activeProductIds
  rw [List.mem_dedup]
  refine List.mem_map_of_mem _ ?_
  rw [List.mem_filter]
  refine ⟨hs, ?_⟩
  simp only [Bool.and_eq_true, decide_eq_true_eq, List.any_eq_true, beq_iff_eq]
  exact ⟨by omega, w, hw, hwid, hcid⟩

/-- C7 witness: in `wdb`, product 202's only sale is dated exactly on the
cutoff day 70 = 100 - 30 and it counts as active. -/
theorem C7_witness : (202 : Nat) ∈ activeProductIds wdb 1 100 :=
  C7_inclusive_lower_bound wdb 1 100 ⟨3, 202, 11, 2, 70⟩ (by decide) (by decide)
    ⟨11, 1, "W2"⟩ (by decide) (by decide) (by decide)

/-- C8 counterexample: the handler performs no company-id validation — for
the non-positive company id 0 it runs its queries and returns the
alert-list response `{alerts: [], total_alerts: 0}` instead of rejecting
the request. -/
theorem C8_counterexample : get_low_stock_alerts sampleDb 0 214 = ⟨[], 0⟩ := by
  rw [get_low_stock_alerts_eval]
  decide

/-- C8 amended: a non-positive company id is not rejected; the handler treats
it like an unknown company — when no warehouse carries the id, the queries
run and return the empty alert list. -/
theorem C8_amended_no_validation (db : DB) (now : Int) (cid : Nat)
    (h : ∀ w ∈ db.warehouses, w.company_id ≠ cid) :
    get_low_stock_alerts db cid now = ⟨[], 0⟩ := by
  apply getAlerts_empty_of_active_empty
  unfold activeProductIds
  rw [List.dedup_eq_nil, List.map_eq_nil, List.filter_eq_nil_iff]
  intro s hs
  simp only [Bool.and_eq_true, decide_eq_true_eq, List.any_eq_true,
    beq_iff_eq, not_and]
  intro _ ⟨w, hw, _, hcid⟩
  exact absurd hcid (h w hw)

/-- C8 amended witness: company id 0 on the edge-case snapshot. -/
theorem C8_amended_witness : get_low_stock_alerts wdb 0 100 = ⟨[], 0⟩ :=
  C8_amended_no_validation wdb 100 0 (by decide)

/-- C2: every alert reports the worst warehouse — among the company's
warehouses holding the product with quantity > 0, the one with minimal
quantity, ties to the lowest warehouse id — and a product none of whose
company warehouses holds positive quantity never appears in the alerts. -/
theorem C2_worst_warehouse (db : DB) (cid : Nat) (now : Int) :
    (∀ a ∈ (get_low_stock_alerts db cid now).alerts,
      isWorstWarehouse (warehousesForProduct db cid a.product_id)
        ⟨a.warehouse_id, a.warehouse_name, a.current_stock⟩) ∧
    (∀ pid, warehousesForProduct db cid pid = [] →
      ∀ a ∈ (get_low_stock_alerts db cid now).alerts, a.product_id ≠ pid) := by
  constructor
  · intro a ha
    rw [alerts_eq_alertsOf] at ha
    rcases List.mem_filterMap.mp ha with ⟨r, hr, hmk⟩
    rcases mkAlert_eq_some hmk with ⟨wh, hwh, hpid, -, -, hwid, hwname, hstock, -, -, -⟩
    have hspec := minByQuantity_spec
      (warehousesForProduct_sorted db cid r.product_id) hwh
    have hrow : (⟨a.warehouse_id, a.warehouse_name, a.current_stock⟩ : WhRow)
        = wh := by
      rw [hwid, hwname, hstock]
    rw [hpid, hrow]
    exact hspec
  · intro pid hempty a ha hpid
    rw [alerts_eq_alertsOf] at ha
    rcases List.mem_filterMap.mp ha with ⟨r, hr, hmk⟩
    rcases mkAlert_eq_some hmk with ⟨wh, hwh, hpid', -, -, -, -, -, -, -, -⟩
    rw [hpid'.symm.trans hpid, hempty] at hwh
    simp [minByQuantity] at hwh

/-- C2 witness: in `wdb`, product 200's alert reports warehouse 10 (the
lowest id among the quantity-2 tie), and the all-zero-stock product 201 is
absent from the alerts. -/
theorem C2_witness :
    isWorstWarehouse (warehousesForProduct wdb 1 200) ⟨10, "W1", 2⟩ ∧
      ∀ a ∈ (get_low_stock_alerts wdb 1 100).alerts, a.product_id ≠ 201 := by
  have hmem : (⟨200, "Prod200", "SKU-200", 10, "W1", 2, 5, 40,
      ⟨none, "N/A", "N/A"⟩⟩ : Alert)
      ∈ (get_low_stock_alerts wdb 1 100).alerts := by
    rw [wdb_eval]
    decide
  exact ⟨(C2_worst_warehouse wdb 1 100).1 _ hmem,
    (C2_worst_warehouse wdb 1 100).2 201 (by decide)⟩

/-- C10: every alert's `current_stock` is the selected warehouse's holding:
positive, at most the company-wide total for the product, which in turn is
below the alert's threshold. -/
theorem C10_current_stock_bounds (db : DB) (cid : Nat) (now : Int) :
    ∀ a ∈ (get_low_stock_alerts db cid now).alerts,
      0 < a.current_stock ∧
        a.current_stock ≤ totalStock db cid a.product_id ∧
        totalStock db cid a.product_id < a.threshold := by
  intro a ha
  rw [alerts_eq_alertsOf] at ha
  rcases List.mem_filterMap.mp ha with ⟨r, hr, hmk⟩
  rcases mkAlert_eq_some hmk with ⟨wh, hwh, hpid, -, -, -, -, hstock, hthr, -, -⟩
  have hg := groupRow_eq_some (mem_lowStockProducts hr)
  have hspec := minByQuantity_spec
    (warehousesForProduct_sorted db cid r.product_id) hwh
  have hb := warehousesForProduct_bounds hspec.1
  rw [hpid, hstock, hthr]
  refine ⟨hb.1, hb.2, ?_⟩
  rw [← hg.2.1]
  exact hg.2.2.1

/-- C10 witness: the sample alert holds 5 at the worst warehouse, at most the
total 15, which is below the threshold 20. -/
theorem C10_witness :
    0 < (5 : Nat) ∧ (5 : Nat) ≤ totalStock sampleDb 1 123 ∧
      totalStock sampleDb 1 123 < 20 := by
  have hmem : (⟨123, "Widget A", "WID-001", 456, "Main Warehouse", 5, 20, 11,
      ⟨some 789, "Supplier Corp", "orders@supplier.com"⟩⟩ : Alert)
      ∈ (get_low_stock_alerts sampleDb 1 214).alerts := by
    rw [sample_eval]
    decide
  exact C10_current_stock_bounds sampleDb 1 214 _ hmem

/-- C4: with unique product ids, a product whose company-wide total equals
its threshold is never alerted (strict inequality), while a product exactly
one unit below threshold is alerted as soon as the active-sales gate passes
and some company warehouse holds positive quantity. -/
theorem C4_strict_threshold (db : DB) (cid : Nat) (now : Int) (p : Product)
    (hp : p ∈ db.products)
    (hnodup : (db.products.map (fun q => q.product_id)).Nodup) :
    (totalStock db cid p.product_id = p.low_stock_threshold →
      ∀ a ∈ (get_low_stock_alerts db cid now).alerts,
        a.product_id ≠ p.product_id) ∧
    (totalStock db cid p.product_id + 1 = p.low_stock_threshold →
      p.product_id ∈ activeProductIds db cid now →
      warehousesForProduct db cid p.product_id ≠ [] →
      ∃ a ∈ (get_low_stock_alerts db cid now).alerts,
        a.product_id = p.product_id) := by
  constructor
  · intro heq a ha hpid
    rw [alerts_eq_alertsOf] at ha
    rcases List.mem_filterMap.mp ha with ⟨r, hr, hmk⟩
    rcases mkAlert_eq_some hmk with ⟨wh, -, hpid', -, -, -, -, -, -, -, -⟩
    have hg := groupRow_eq_some (mem_lowStockProducts hr)
    rcases hg.2.2.2.2 with ⟨p', hfind, hthr, -, -⟩
    have hrpid : r.product_id = p.product_id := hpid'.symm.trans hpid
    rw [hrpid] at hfind
    rw [find?_product_eq_self hnodup hp] at hfind
    injection hfind with hpp
    have h2 := hg.2.2.1
    rw [hg.2.1, hrpid, hthr, ← hpp, heq] at h2
    exact lt_irrefl _ h2
  · intro hone hact hne
    have hfind := find?_product_eq_self hnodup hp
    have hcontains : (activeProductIds db cid now).contains p.product_id
        = true := List.elem_iff.mpr hact
    have hcine : companyInventory db cid p.product_id ≠ [] := by
      obtain ⟨c, hc⟩ := List.exists_mem_of_ne_nil _ hne
      rcases mem_warehousesForProduct hc with ⟨i, hi, -, -, -⟩
      exact List.ne_nil_of_mem hi
    have hlt : totalStock db cid p.product_id < p.low_stock_threshold := by
      omega
    have hrow := groupRow_eq_some_of hfind hcontains hcine hlt
    have hpidmem : p.product_id ∈ List.insertionSort (· ≤ ·)
        ((db.products.map (fun q => q.product_id)).dedup) := by
      rw [(List.perm_insertionSort _ _).mem_iff, List.mem_dedup]
      exact List.mem_map_of_mem _ hp
    have hrmem : (⟨p.product_id, p.name, p.sku, p.low_stock_threshold,
        totalStock db cid p.product_id⟩ : LowStockRow) ∈
        lowStockProducts db cid (activeProductIds db cid now) := by
      unfold lowStockProducts
      exact List.mem_filterMap.mpr ⟨p.product_id, hpidmem, hrow⟩
    obtain ⟨wh, hwh⟩ : ∃ wh,
        minByQuantity (warehousesForProduct db cid p.product_id) = some wh := by
      cases hl : warehousesForProduct db cid p.product_id with
      | nil => exact absurd hl hne
      | cons x xs => exact ⟨_, rfl⟩
    obtain ⟨a, hmka⟩ : ∃ a, mkAlert db cid now (⟨p.product_id, p.name, p.sku,
        p.low_stock_threshold, totalStock db cid p.product_id⟩ : LowStockRow)
        = some a := by
      unfold mkAlert
      dsimp only
      rw [hwh]
      exact ⟨_, rfl⟩
    refine ⟨a, ?_, ?_⟩
    · rw [alerts_eq_alertsOf]
      exact List.mem_filterMap.mpr ⟨_, hrmem, hmka⟩
    · rcases mkAlert_eq_some hmka with ⟨-, -, hpid', -, -, -, -, -, -, -, -⟩
      exact hpid'

/-- C4 witness: in `wdb`, product 203 (total 4 = threshold 4) is never
alerted, and product 202 (total 6, threshold 7, active, positive stock at
warehouse 10) is alerted. -/
theorem C4_witness :
    (∀ a ∈ (get_low_stock_alerts wdb 1 100).alerts, a.product_id ≠ 203) ∧
      ∃ a ∈ (get_low_stock_alerts wdb 1 100).alerts, a.product_id = 202 := by
  constructor
  · exact (C4_strict_threshold wdb 1 100 ⟨203, "SKU-203", "Prod203", 4⟩
      (by decide) (by decide)).1 (by decide)
  · exact (C4_strict_threshold wdb 1 100 ⟨202, "SKU-202", "Prod202", 7⟩
      (by decide) (by decide)).2 (by decide) (by decide) (by decide)

/-- C3: assuming referential integrity of the supplier link table, each
alert's supplier is one supplier linked to the product — the one with the
lowest supplier id — and a product with no linked supplier gets the
`{id: none, name: "N/A", contact_email: "N/A"}` placeholder. -/
theorem C3_supplier_choice (db : DB) (cid : Nat) (now : Int)
    (hri : ∀ ps ∈ db.productSuppliers, ∃ s ∈ db.suppliers,
      s.supplier_id = ps.supplier_id) :
    ∀ a ∈ (get_low_stock_alerts db cid now).alerts,
      (a.supplier.id = none →
        (∀ ps ∈ db.productSuppliers, ps.product_id ≠ a.product_id) ∧
          a.supplier.name = "N/A" ∧ a.supplier.contact_email = "N/A") ∧
      (∀ sid, a.supplier.id = some sid →
        (∃ ps ∈ db.productSuppliers, ps.product_id = a.product_id ∧
            ps.supplier_id = sid) ∧
          (∀ ps ∈ db.productSuppliers, ps.product_id = a.product_id →
            sid ≤ ps.supplier_id) ∧
          ∃ s ∈ db.suppliers, s.supplier_id = sid ∧
            a.supplier.name = s.name ∧
            a.supplier.contact_email = s.contact_email) := by
  intro a ha
  rw [alerts_eq_alertsOf] at ha
  rcases List.mem_filterMap.mp ha with ⟨r, hr, hmk⟩
  rcases mkAlert_eq_some hmk with ⟨wh, -, hpid, -, -, -, -, -, -, -, hsupp⟩
  have htotal : ∀ sid ∈ supplierIdsFor db r.product_id,
      (db.suppliers.find? (fun s => s.supplier_id == sid)).isSome := by
    intro sid hsid
    rcases mem_supplierIdsFor.mp hsid with ⟨ps, hps, -, hsid'⟩
    rcases hri ps hps with ⟨s, hs, hss⟩
    exact List.find?_isSome.mpr ⟨s, hs, by simp [hss, hsid']⟩
  have hhead : supplierInfo db r.product_id =
      (supplierIdsFor db r.product_id).head?.bind
        (fun sid => db.suppliers.find? (fun s => s.supplier_id == sid)) := by
    unfold supplierInfo
    exact head?_filterMap_of_total _ _ htotal
  cases hids : supplierIdsFor db r.product_id with
  | nil =>
    have hnone : supplierInfo db r.product_id = none := by
      rw [hhead, hids]
      rfl
    rw [hnone] at hsupp
    constructor
    · intro _
      refine ⟨?_, by rw [hsupp]; rfl, by rw [hsupp]; rfl⟩
      intro ps hps hpseq
      have hmem : ps.supplier_id ∈ supplierIdsFor db r.product_id :=
        mem_supplierIdsFor.mpr ⟨ps, hps, hpseq.trans hpid, rfl⟩
      rw [hids] at hmem
      cases hmem
    · intro sid hsid
      rw [hsupp] at hsid
      simp [supplierRecord] at hsid
  | cons sid0 rest =>
    obtain ⟨s, hs⟩ := Option.isSome_iff_exists.mp
      (htotal sid0 (by rw [hids]; exact List.mem_cons_self _ _))
    have hsome : supplierInfo db r.product_id = some s := by
      rw [hhead, hids, List.head?_cons, Option.some_bind]
      exact hs
    rw [hsome] at hsupp
    have hsid0 : s.supplier_id = sid0 := by
      simpa using List.find?_some hs
    have hs_mem := List.mem_of_find?_eq_some hs
    constructor
    · intro hnone
      rw [hsupp] at hnone
      simp [supplierRecord] at hnone
    · intro sid hsid
      rw [hsupp] at hsid
      have hsid_eq : s.supplier_id = sid := by
        simpa [supplierRecord] using hsid
      have hsid0_eq : sid0 = sid := hsid0.symm.trans hsid_eq
      refine ⟨?_, ?_, ?_⟩
      · have hmem0 : sid0 ∈ supplierIdsFor db r.product_id := by
          rw [hids]
          exact List.mem_cons_self _ _
        rcases mem_supplierIdsFor.mp hmem0 with ⟨ps, hps, hppid, hpsid⟩
        exact ⟨ps, hps, by rw [hppid, hpid], by rw [hpsid, hsid0_eq]⟩
      · intro ps hps hpspid
        have hmem : ps.supplier_id ∈ supplierIdsFor db r.product_id :=
          mem_supplierIdsFor.mpr ⟨ps, hps, hpspid.trans hpid, rfl⟩
        have hsorted := supplierIdsFor_sorted db r.product_id
        rw [hids] at hsorted hmem
        rcases List.mem_cons.mp hmem with heq | hmem'
        · rw [heq, ← hsid0_eq]
        · exact hsid0_eq ▸ (List.rel_of_sorted_cons hsorted _ hmem')
      · exact ⟨s, hs_mem, hsid_eq, by rw [hsupp]; rfl, by rw [hsupp]; rfl⟩

/-- C3 witness: in `wdb`, supplier-less product 200 has no link rows and its
alert shows the placeholder, while product 202 (linked to suppliers 31 and
30) gets supplier 30, the lowest linked id. -/
theorem C3_witness :
    (∀ ps ∈ wdb.productSuppliers, ps.product_id ≠ 200) ∧
      (∃ ps ∈ wdb.productSuppliers, ps.product_id = 202 ∧
        ps.supplier_id = 30) ∧
      ∀ ps ∈ wdb.productSuppliers, ps.product_id = 202 →
        30 ≤ ps.supplier_id := by
  have hmem200 : (⟨200, "Prod200", "SKU-200", 10, "W1", 2, 5, 40,
      ⟨none, "N/A", "N/A"⟩⟩ : Alert)
      ∈ (get_low_stock_alerts wdb 1 100).alerts := by
    rw [wdb_eval]
    decide
  have hmem202 : (⟨202, "Prod202", "SKU-202", 10, "W1", 6, 7, 90,
      ⟨some 30, "S30", "s30@x"⟩⟩ : Alert)
      ∈ (get_low_stock_alerts wdb 1 100).alerts := by
    rw [wdb_eval]
    decide
  refine ⟨((C3_supplier_choice wdb 1 100 (by decide) _ hmem200).1 rfl).1,
    ((C3_supplier_choice wdb 1 100 (by decide) _ hmem202).2 30 rfl).1,
    ((C3_supplier_choice wdb 1 100 (by decide) _ hmem202).2 30 rfl).2.1⟩
